import Mathlib

/-!
Verification of the report-generation core of the LangChain marine-insurance
repository: context assembly (app/chains/rag_chain.py), template selection and
incident formatting (app/chains/report_chain.py), seed-query construction and
the report task lifecycle (app/services/report_service.py), session memory
(app/services/memory_manager.py) and the PDF artifact path logic.

Text is modelled as a list of characters (Python strings are sequences of code
points), dictionaries of the dynamically typed payloads as association lists of
Python values, and fallible Python attribute access as Except.
-/

/-- Text: a Python string as its sequence of characters. -/
abbrev Str := List Char

/-- A dynamically typed Python value, as the payload dictionaries hold them. -/
inductive PyVal where
  | vnone : PyVal
  | vstr (s : Str) : PyVal
  | vint (n : Int) : PyVal
  | vbool (b : Bool) : PyVal
  deriving DecidableEq, Repr

/-- Python truthiness of a value. -/
def PyVal.truthy : PyVal → Bool
  | .vnone => false
  | .vstr s => !s.isEmpty
  | .vint n => n != 0
  | .vbool b => b

/-- Python str() of a value. -/
def PyVal.toText : PyVal → Str
  | .vnone => "None".data
  | .vstr s => s
  | .vint n => (toString n).data
  | .vbool b => if b then "True".data else "False".data

/-- Python `a or b` on values: b when a is falsy. -/
def pyOr (a b : PyVal) : PyVal := if a.truthy then a else b

/-- Python `a or b` on strings: b when a is the empty string. -/
def pyOrStr (a b : Str) : Str := if a = [] then b else a

/-- A Python dict with string keys, as the incident payloads are passed around. -/
abbrev PyDict := List (Str × PyVal)

/-- Python dict.get(key, default): the first binding of the key, else the default. -/
def dictGet (d : PyDict) (key : Str) (dflt : PyVal) : PyVal :=
  match d with
  | [] => dflt
  | (k, v) :: rest => if k = key then v else dictGet rest key dflt

/-- Python dict.get(key) with no default: None when the key is absent. -/
def dictLookup (d : PyDict) (key : Str) : Option PyVal :=
  match d with
  | [] => none
  | (k, v) :: rest => if k = key then some v else dictLookup rest key

/-- Python str.lower(), character by character (the keys involved are ASCII). -/
def lowerStr (s : Str) : Str := s.map Char.toLower

/-- Python .lower() as attribute access on a dynamic value: AttributeError
unless the value is a string. -/
def pyLower : PyVal → Except String Str
  | .vstr s => .ok (lowerStr s)
  | _ => .error "AttributeError"

/-- The characters Python str.strip() removes by default. -/
def pyIsSpace (c : Char) : Bool :=
  c = ' ' || c = '\t' || c = '\n' || c = '\x0b' || c = '\x0c' || c = '\r'

/-- Python str.strip(): whitespace removed from both ends. -/
def stripChars (s : Str) : Str :=
  ((s.dropWhile pyIsSpace).reverse.dropWhile pyIsSpace).reverse

/- =====================================================================
   app/chains/rag_chain.py — RAGChain._context_from_retriever
   ===================================================================== -/

/-- A retrieved document chunk: page content plus metadata, as
langchain.schema.Document is used by RAGChain. -/
structure Document where
  page_content : Str
  metadata : List (Str × Str)
  deriving DecidableEq, Repr

/-- Metadata lookup, d.metadata.get(key, default). -/
def metaGet (m : List (Str × Str)) (key dflt : Str) : Str :=
  match m with
  | [] => dflt
  | (k, v) :: rest => if k = key then v else metaGet rest key dflt

/-- The source identifier of a chunk: d.metadata.get("source", "unknown"). -/
def metaSource (d : Document) : Str := metaGet d.metadata "source".data "unknown".data

/-- The fixed truncation marker appended when the merged context is cut. -/
def truncationMarker : Str := "\n\n...(문맥 길이 초과로 일부 생략됨)".data

/-- The merged chunk contents: "\n\n".join(d.page_content for d in docs). -/
def mergedContent (docs : List Document) : Str :=
  List.intercalate "\n\n".data (docs.map Document.page_content)

/-- The context body before any source list: the merged contents, truncated to
max_context_len with the marker appended when they are longer. -/
def contextBody (docs : List Document) (maxContextLen : Nat) : Str :=
  if maxContextLen < (mergedContent docs).length then
    (mergedContent docs).take maxContextLen ++ truncationMarker
  else mergedContent docs

/-- One source line per retrieved chunk: f"- {d.metadata.get('source', 'unknown')}". -/
def sourceLines (docs : List Document) : List Str :=
  docs.map (fun d => "- ".data ++ metaSource d)

/-- The appended source block: "\n".join of the per-chunk source lines. -/
def sourcesBlock (docs : List Document) : Str :=
  List.intercalate "\n".data (sourceLines docs)

/-- RAGChain._context_from_retriever after retrieval: the bounded body, and the
source block appended after it when include_sources is set. -/
def contextFromRetriever (docs : List Document) (maxContextLen : Nat)
    (includeSources : Bool) : Str :=
  if includeSources then
    contextBody docs maxContextLen ++ "\n\n[참고 문서 출처]\n".data ++ sourcesBlock docs
  else contextBody docs maxContextLen

/- =====================================================================
   app/chains/report_chain.py — ReportChain
   ===================================================================== -/

/-- Association-list lookup with string keys (a Python dict of templates or
labels). -/
def alistGet {α : Type} (l : List (Str × α)) (key : Str) : Option α :=
  match l with
  | [] => none
  | (k, v) :: rest => if k = key then some v else alistGet rest key

/-- The common prompt skeleton shared by every incident template
(ReportChain._common_header). -/
def commonHeader : Str := "
당신은 해상보험 심사관입니다.
아래 [컨텍스트]와 [사고 기본정보]를 바탕으로
'보험 청구서 양식'에 맞춰 정확하고 간결한 공식 문서체로 보고서를 작성하세요.
가능한 경우 법령/약관 조항은 조항번호와 조문명을 병기하고, 근거가 부족하면 '근거 부족'이라고 명확히 표기합니다.
모든 금액은 숫자 단위(원/달러 등)를 명시하십시오.

[컨텍스트]
{rag_context}

[사고 기본정보]
{incident_data}

# 보험 청구서

## 1. 기본정보
- 보험사명: (확정 불가 시 공란)
- 청구인(선주/회사): (확정 불가 시 공란)
- 사고유형: (incident_type 반영)
- 사고일시: (컨텍스트/설명에서 추론 가능 시 기입, 불가 시 공란)
- 발생위치: (location 반영)
- 보고서 유형: (report_type 반영)
- 언어: (language 반영)

## 2. 사고 개요
- 한 문단 요약
- 주요 사실(언제/어디서/무엇/왜/어떻게)

## 3. 사고 경위
- 발생 전후 경과, 즉시 조치 내용, 확인 가능한 로그/기록(가능 시)

## 4. 피해 및 손해내역
- 인적/선체/화물/환경 피해 항목별 요약
- 방제/복구/수리 관련 항목(해당 시)

## 5. 법령·국제기준·약관 근거
- 관련 국내법/국제협약/보험약관 조항 요약
- 각 조항의 적용 이유 및 시사점

## 6. 보험금 산정 근거 및 청구금액
- 항목별 산정(예: 수리비, 방제비, 정박손실 등)
- 공제/면책 사유 검토
- 최종 청구금액 제시(가능 시 추정치 포함)

## 7. 첨부서류 목록(필요 시)
- 선박등록증/선원명부/사진/수리견적서/조사보고서/해경·기관 문서 등

## 8. 결론 및 권고사항
- 책임소지/재발방지/후속조치 권고
".data

/-- The fire-incident template (ReportChain._fire_template). -/
def fireTemplate : Str := commonHeader ++ "
[유형별 보강 가이드]
- 화재 원인(전기/연료/인화물질 등)과 진압 경과를 정확히 정리
- 선박안전법/보험 약관의 화재 관련 조항 인용
- 화물 손상, 연소·열 손상 범위와 수리 가능성 명시
".data

/-- The oil-spill template (ReportChain._oil_template). -/
def oilTemplate : Str := commonHeader ++ "
[유형별 보강 가이드]
- 유류 종류/유출량, 기상해황, 오염 범위, 방제 조치 상세
- 해양환경관리법·MARPOL 협약 근거 및 방제비 산정 논리
- 환경피해 산정 시 불확실성/추정치 범위 명시
".data

/-- The collision template (ReportChain._collision_template). -/
def collisionTemplate : Str := commonHeader ++ "
[유형별 보강 가이드]
- 충돌 상대선/항로/가시거리/속력/기관상태 등 상태 기록
- 국제충돌예방규칙(COLREGS) 및 해사안전법 적용 검토
- 선체 손상 부위/수리범위/운항중단 손실 고려
".data

/-- The crew-injury template (ReportChain._injury_template). -/
def injuryTemplate : Str := commonHeader ++ "
[유형별 보강 가이드]
- 부상자 신원/근무상황/보호구/안전절차 준수 여부
- 선원법·산재보험 관련 조항으로 급여/보상 항목 정리
- 치료기간/후유장해 가능성/복귀 전망 명시
".data

/-- The generic fallback template (ReportChain._generic_template). -/
def genericTemplate : Str := commonHeader ++ "
[유형별 보강 가이드]
- 사건 특성에 맞춰 4~6항의 손해내역·근거·산정 영역을 충실히 기술
".data

/-- The template registry prepared in ReportChain.__init__: the four
incident-type keys. -/
def templatesList : List (Str × Str) :=
  [("fire".data, fireTemplate), ("oil_spill".data, oilTemplate),
   ("collision".data, collisionTemplate), ("crew_injury".data, injuryTemplate)]

/-- ReportChain._select_template: key = (incident_type or "generic").lower();
the registry entry when the key is known, the generic template otherwise. -/
def selectTemplate (incidentType : Str) : Str :=
  (alistGet templatesList (lowerStr (pyOrStr incidentType "generic".data))).getD
    genericTemplate

/-- The Korean display labels of the recognized incident fields
(label_map in ReportChain._format_incident_data). -/
def labelMap : List (Str × Str) :=
  [("incident_type".data, "사고유형".data), ("description".data, "설명".data),
   ("location".data, "발생위치".data), ("report_type".data, "보고서 유형".data),
   ("language".data, "언어".data)]

/-- The fixed iteration order of recognized fields. -/
def recognizedKeys : List Str :=
  ["incident_type".data, "description".data, "location".data,
   "report_type".data, "language".data]

/-- label_map.get(key, key). -/
def labelFor (key : Str) : Str := (alistGet labelMap key).getD key

/-- One loop step of ReportChain._format_incident_data: the rendered line of a
key, or nothing when the value is absent, None or the empty string. -/
def incidentLineOf (data : PyDict) (key : Str) : Option Str :=
  match dictLookup data key with
  | some v =>
      if v = PyVal.vnone ∨ v = PyVal.vstr [] then none
      else some ("- ".data ++ labelFor key ++ ": ".data ++ v.toText)
  | none => none

/-- The rendered lines of the recognized fields, in the fixed order. -/
def incidentLines (data : PyDict) : List Str :=
  recognizedKeys.filterMap (incidentLineOf data)

/-- ReportChain._format_incident_data: the joined lines, or the fixed
placeholder when no recognized field is shown. -/
def formatIncidentData (data : PyDict) : Str :=
  if incidentLines data = [] then "(제공된 데이터 없음)".data
  else List.intercalate "\n".data (incidentLines data)

/- =====================================================================
   app/services/report_service.py — InsuranceReportService
   ===================================================================== -/

/-- Per-incident-type retrieval keyword hint (fire branch of
_build_seed_query). -/
def fireHint : Str := "선박 화재사고 처리 기준, 보험 약관 화재조항, 선박안전법 관련 조항".data

/-- Oil-spill hint. -/
def oilSpillHint : Str := "유류유출 방제 기준, 해양환경관리법, MARPOL 협약, 보험 약관 오염조항".data

/-- Collision hint. -/
def collisionHint : Str := "선박 충돌 관련 해사안전법, 국제충돌예방규칙 COLREGS, 보험 약관 충돌조항".data

/-- Crew-injury hint. -/
def crewInjuryHint : Str := "선원 재해 보상, 선원법, 산재보험 관련 규정, 보험 약관 인적사고 조항".data

/-- Generic fallback hint (else branch). -/
def genericHint : Str := "해상보험 일반 약관, 선박사고 일반 규정".data

/-- The if/elif chain of _build_seed_query choosing a hint for the lowered
incident type. -/
def hintFor (itype : Str) : Str :=
  if itype = "fire".data then fireHint
  else if itype = "oil_spill".data then oilSpillHint
  else if itype = "collision".data then collisionHint
  else if itype = "crew_injury".data then crewInjuryHint
  else genericHint

/-- desc of _build_seed_query:
str(incident_data.get("description", incident_data.get("title", "")) or "").strip(). -/
def seedDescription (data : PyDict) : Str :=
  stripChars
    (PyVal.toText
      (pyOr (dictGet data "description".data (dictGet data "title".data (PyVal.vstr [])))
        (PyVal.vstr [])))

/-- The dynamic value whose .lower() gives itype in _build_seed_query:
incident_type or incident_data.get("incident_type", "generic"). -/
def seedIncidentTypeRaw (data : PyDict) (incidentType : Str) : PyVal :=
  pyOr (PyVal.vstr incidentType) (dictGet data "incident_type".data (PyVal.vstr "generic".data))

/-- InsuranceReportService._build_seed_query: the stripped description, the
fixed separator and the per-type hint, stripped again; .lower() on a
non-string payload value raises. -/
def buildSeedQuery (data : PyDict) (incidentType : Str) : Except String Str :=
  match pyLower (seedIncidentTypeRaw data incidentType) with
  | .error e => .error e
  | .ok itype =>
      .ok (stripChars (seedDescription data ++ "\n\n[검색 힌트]\n".data ++ hintFor itype))

/-- The Optional[str] incident_type argument as the dynamic value Python sees. -/
def explicitVal : Option Str → PyVal
  | none => PyVal.vnone
  | some s => PyVal.vstr s

/-- resolved_type of generate_insurance_report_pdf:
(incident_type or incident_data.get("incident_type", "generic")).lower(). -/
def resolveIncidentType (explicit : Option Str) (data : PyDict) : Except String Str :=
  pyLower (pyOr (explicitVal explicit) (dictGet data "incident_type".data (PyVal.vstr "generic".data)))

/-- Whether the payload's incident_type value, if the key is present, is a
string (the condition under which .lower() cannot raise on it). -/
def strOrAbsentIncidentType (data : PyDict) : Bool :=
  match dictLookup data "incident_type".data with
  | some (PyVal.vstr _) => true
  | some _ => false
  | none => true

/-- os.path.join for one component, as the services use it. -/
def joinPath (a b : Str) : Str :=
  if b.head? = some '/' then b
  else if a = [] ∨ a.getLast? = some '/' then a ++ b
  else a ++ "/".data ++ b

/-- os.getenv("REPORTS_DIR", "./storage/reports"): the configured reports
directory. -/
def reportsDirOf (env : Option Str) : Str := env.getD "./storage/reports".data

/-- InsuranceReportService.get_report_path: the deterministic artifact path
when a file exists there, None otherwise. -/
def InsuranceReportService.get_report_path (env : Option Str) (fsExists : Str → Bool)
    (taskId : Str) : Option Str :=
  if fsExists (joinPath (reportsDirOf env) (taskId ++ ".pdf".data)) then
    some (joinPath (reportsDirOf env) (taskId ++ ".pdf".data))
  else none

/-- ReportService.get_report_path: textually the same lookup in the QA
service. -/
def ReportService.get_report_path (env : Option Str) (fsExists : Str → Bool)
    (taskId : Str) : Option Str :=
  if fsExists (joinPath (reportsDirOf env) (taskId ++ ".pdf".data)) then
    some (joinPath (reportsDirOf env) (taskId ++ ".pdf".data))
  else none

/-- Python `a or b` on Optional[str] results, as the download endpoint chains
the two lookups. -/
def pyOrOptStr (a b : Option Str) : Option Str :=
  match a with
  | some s => if s = [] then b else some s
  | none => b

/-- The path the download endpoint resolves:
insurance_service.get_report_path(task_id) or qa_service.get_report_path(task_id). -/
def downloadReportPath (env : Option Str) (fsExists : Str → Bool) (taskId : Str) :
    Option Str :=
  pyOrOptStr (InsuranceReportService.get_report_path env fsExists taskId)
    (ReportService.get_report_path env fsExists taskId)

/- =====================================================================
   app/services/memory_manager.py — MemoryManager
   ===================================================================== -/

/-- The type tag of a LangChain chat message, as history_text branches on it. -/
inductive MsgRole where
  | human : MsgRole
  | ai : MsgRole
  deriving DecidableEq, Repr

/-- One stored chat message. -/
structure ChatMessage where
  type : MsgRole
  content : Str
  deriving DecidableEq, Repr

/-- The MemoryManager state: sessions keyed by session id, each a message
buffer in insertion order. -/
abbrev Sessions := List (Str × List ChatMessage)

/-- ensure + chat_memory.add_message for one session: create the session when
absent, then append the message to its buffer. -/
def sessionAppend (sessions : Sessions) (sid : Str) (m : ChatMessage) : Sessions :=
  match sessions with
  | [] => [(sid, [m])]
  | (k, ms) :: rest =>
      if k = sid then (k, ms ++ [m]) :: rest else (k, ms) :: sessionAppend rest sid m

/-- MemoryManager.add_user. -/
def addUserMsg (sessions : Sessions) (sid text : Str) : Sessions :=
  sessionAppend sessions sid ⟨MsgRole.human, text⟩

/-- MemoryManager.add_ai. -/
def addAiMsg (sessions : Sessions) (sid text : Str) : Sessions :=
  sessionAppend sessions sid ⟨MsgRole.ai, text⟩

/-- The role label of one rendered line: "사용자" for a human message, "AI"
otherwise. -/
def roleLabelOf (m : ChatMessage) : Str :=
  if m.type = MsgRole.human then "사용자".data else "AI".data

/-- The rendered lines of history_text: the last 20 messages (messages[-20:])
in stored order, each labelled by role. -/
def historyLines (msgs : List ChatMessage) : List Str :=
  (msgs.drop (msgs.length - 20)).map (fun m => roleLabelOf m ++ ": ".data ++ m.content)

/-- MemoryManager.history_text: empty for an unknown session, else the lines
joined by newlines. -/
def historyText (sessions : Sessions) (sid : Str) : Str :=
  match alistGet sessions sid with
  | none => []
  | some msgs => List.intercalate "\n".data (historyLines msgs)

/-- One call against the memory manager. -/
inductive MemEvent where
  | user (sid text : Str) : MemEvent
  | ai (sid text : Str) : MemEvent

/-- The session an event addresses. -/
def eventSid : MemEvent → Str
  | .user sid _ => sid
  | .ai sid _ => sid

/-- The message an event stores. -/
def messageOfEvent : MemEvent → ChatMessage
  | .user _ t => ⟨MsgRole.human, t⟩
  | .ai _ t => ⟨MsgRole.ai, t⟩

/-- Apply one add_user/add_ai call to the manager state. -/
def applyEvent (sessions : Sessions) (e : MemEvent) : Sessions :=
  match e with
  | .user sid t => addUserMsg sessions sid t
  | .ai sid t => addAiMsg sessions sid t

/-- Run a sequence of add_user/add_ai calls on a fresh manager. -/
def runEvents (evs : List MemEvent) : Sessions := evs.foldl applyEvent []

/-- The message buffer of one session, empty when the session is unknown. -/
def sessionMessages (sessions : Sessions) (sid : Str) : List ChatMessage :=
  (alistGet sessions sid).getD []

/-- The conversation a sequence of calls builds for one session: its own calls,
in order. -/
def conversationOf (sid : Str) (evs : List MemEvent) : List ChatMessage :=
  (evs.filter (fun e => decide (eventSid e = sid))).map messageOfEvent

/- =====================================================================
   app/services/report_service.py — generate_insurance_report_pdf
   ===================================================================== -/

/-- Step 1 of generate_insurance_report_pdf: the RAG context when use_rag is
set (seed query built first, then the retrieval+generation capability run on
it), the empty string otherwise. rag_run stands for RAGChain.run, an external
retrieval/LLM capability that either returns text or raises. -/
def ragContextStep (rag_run : Str → Except String Str) (data : PyDict)
    (incidentType : Option Str) (useRag : Bool) : Except String Str :=
  if useRag then
    match buildSeedQuery data (incidentType.getD []) with
    | .error e => .error e
    | .ok seed => rag_run seed
  else .ok []

/-- ReportChain.generate_report with the LLM as an opaque capability: the
selected template, the RAG context and the formatted incident data are handed
to the generation call, which either returns the report text or raises. -/
def generateReport (gen : Str → Str → Str → Except String Str) (data : PyDict)
    (ragCtx : Str) (incidentType : Str) : Except String Str :=
  gen (selectTemplate incidentType) ragCtx (formatIncidentData data)

/-- Modelled from the spec: the artifact rendering capability behind
save_report_pdf (the reportlab renderer is outside the repository sources).
Per the spec it must fail loudly on error and never commit a partially
written artifact: on success the complete file appears at the path, on error
the file system is unchanged. -/
def renderCommit (render : Str → Str → Except String Unit) (fs : List Str)
    (path text : Str) : Except String Unit × List Str :=
  match render path text with
  | .error e => (.error e, fs)
  | .ok _ => (.ok (), fs ++ [path])

/-- InsuranceReportService.generate_insurance_report_pdf as a state
transformer on the set of existing artifact paths: RAG context (optional),
incident-type resolution, generation, then the PDF written at
reports_dir/<task_id>.pdf. Any step's error is returned unchanged (the
try/except around save_report_pdf re-raises), and the file system is touched
only by a successful render. -/
def generateInsuranceReportPdf (rag_run : Str → Except String Str)
    (gen : Str → Str → Str → Except String Str)
    (render : Str → Str → Except String Unit) (env : Option Str) (fs : List Str)
    (taskId : Str) (data : PyDict) (incidentType : Option Str) (useRag : Bool) :
    Except String Str × List Str :=
  match ragContextStep rag_run data incidentType useRag with
  | .error e => (.error e, fs)
  | .ok ragCtx =>
    match resolveIncidentType incidentType data with
    | .error e => (.error e, fs)
    | .ok resolved =>
      match generateReport gen data ragCtx resolved with
      | .error e => (.error e, fs)
      | .ok reportText =>
        match renderCommit render fs (joinPath (reportsDirOf env) (taskId ++ ".pdf".data)) reportText with
        | (.error e, fs₂) => (.error e, fs₂)
        | (.ok _, fs₂) => (.ok (joinPath (reportsDirOf env) (taskId ++ ".pdf".data)), fs₂)

/- Concrete inputs used by the closed witness instances. -/

/-- A retrieval capability that raises on every query. -/
def failingRagRun : Str → Except String Str := fun _ => Except.error "RetrievalError"

/-- A generation capability that returns a fixed report. -/
def fixedGen : Str → Str → Str → Except String Str := fun _ _ _ => Except.ok "report".data

/-- A renderer that always succeeds. -/
def okRender : Str → Str → Except String Unit := fun _ _ => Except.ok ()

/-- A fire-incident payload with a free-text description. -/
def sampleIncident : PyDict :=
  [("incident_type".data, PyVal.vstr "fire".data),
   ("description".data, PyVal.vstr "엔진룸 화재".data)]

/-- Two retrieved chunks sharing one source identifier. -/
def dupSourceDocA : Document := ⟨"a".data, [("source".data, "s".data)]⟩

/-- The second chunk with the same source. -/
def dupSourceDocB : Document := ⟨"b".data, [("source".data, "s".data)]⟩

/-- Spec side of C8: whether a recognized field is shown (present and neither
None nor the empty string). -/
def shownB (data : PyDict) (key : Str) : Bool :=
  match dictLookup data key with
  | some v => if v = PyVal.vnone ∨ v = PyVal.vstr [] then false else true
  | none => false

/-- Spec side of C8: the displayed text of a shown field. -/
def shownText (data : PyDict) (key : Str) : Str :=
  PyVal.toText ((dictLookup data key).getD PyVal.vnone)

/- =====================================================================
   Theorems
   ===================================================================== -/

/-- C1: for every retrieval result and max_context_len L, the context body
(the concatenated chunk contents before any source list) has length at most
L plus the length of the fixed truncation marker; and the merged contents
exceeded L exactly when the body is the merged contents truncated to exactly
L with the marker appended. -/
theorem context_body_bound_and_marker (docs : List Document) (L : Nat) :
    (contextBody docs L).length ≤ L + truncationMarker.length ∧
    (L < (mergedContent docs).length ↔
      contextBody docs L = (mergedContent docs).take L ++ truncationMarker ∧
      ((mergedContent docs).take L).length = L) := by
  by_cases h : L < (mergedContent docs).length
  · rw [contextBody, if_pos h]
    refine ⟨?_, ?_⟩
    · rw [List.length_append, List.length_take]
      omega
    · exact ⟨fun _ => ⟨rfl, by rw [List.length_take]; omega⟩, fun _ => h⟩
  · rw [contextBody, if_neg h]
    have h' : (mergedContent docs).length ≤ L := Nat.not_lt.mp h
    refine ⟨by omega, ?_⟩
    constructor
    · intro hlt
      exact absurd hlt h
    · rintro ⟨heq, hlen⟩
      exfalso
      have hml : (mergedContent docs).length
          = ((mergedContent docs).take L).length + truncationMarker.length := by
        rw [← List.length_append, ← heq]
      have hpos : 0 < truncationMarker.length := by decide
      omega

/-- Helper: selection with a non-empty key looks up the lowercased key. -/
theorem selectTemplate_eq_lookup (x : Str) (hx : x ≠ []) :
    selectTemplate x = (alistGet templatesList (lowerStr x)).getD genericTemplate := by
  rw [selectTemplate, pyOrStr, if_neg hx]

/-- Helper: every hit in the template registry is one of the four typed
templates. -/
theorem alistGet_templatesList (k t : Str) (h : alistGet templatesList k = some t) :
    t = fireTemplate ∨ t = oilTemplate ∨ t = collisionTemplate ∨ t = injuryTemplate := by
  simp only [templatesList, alistGet] at h
  split_ifs at h <;> simp_all

/-- C3: template selection is total and case-insensitive: every input yields
one of the five templates; the input is matched against the four incident-type
keys after lowercasing; an empty or unrecognized key yields the generic
template, in particular "UNKNOWN" and "". -/
theorem select_template_total_and_fallback (x : Str) :
    (lowerStr x = "fire".data → selectTemplate x = fireTemplate) ∧
    (lowerStr x = "oil_spill".data → selectTemplate x = oilTemplate) ∧
    (lowerStr x = "collision".data → selectTemplate x = collisionTemplate) ∧
    (lowerStr x = "crew_injury".data → selectTemplate x = injuryTemplate) ∧
    (lowerStr x ∉ ["fire".data, "oil_spill".data, "collision".data, "crew_injury".data] →
      selectTemplate x = genericTemplate) ∧
    (selectTemplate x = fireTemplate ∨ selectTemplate x = oilTemplate ∨
      selectTemplate x = collisionTemplate ∨ selectTemplate x = injuryTemplate ∨
      selectTemplate x = genericTemplate) ∧
    selectTemplate "UNKNOWN".data = genericTemplate ∧
    selectTemplate "".data = genericTemplate := by
  have hne : ∀ w : Str, lowerStr x = w → w ≠ [] → x ≠ [] := by
    intro w hw hwne h0
    subst h0
    exact hwne hw.symm
  refine ⟨?_, ?_, ?_, ?_, ?_, ?_, ?_, ?_⟩
  · intro h
    rw [selectTemplate_eq_lookup x (hne _ h (by decide)), h]
    rfl
  · intro h
    rw [selectTemplate_eq_lookup x (hne _ h (by decide)), h]
    rfl
  · intro h
    rw [selectTemplate_eq_lookup x (hne _ h (by decide)), h]
    rfl
  · intro h
    rw [selectTemplate_eq_lookup x (hne _ h (by decide)), h]
    rfl
  · intro h
    by_cases hx : x = []
    · subst hx
      rfl
    · rw [selectTemplate_eq_lookup x hx]
      cases hres : alistGet templatesList (lowerStr x) with
      | none => rfl
      | some t =>
          exfalso
          simp only [templatesList, alistGet] at hres
          split_ifs at hres with h1 h2 h3 h4
          · exact h (by rw [← h1]; simp)
          · exact h (by rw [← h2]; simp)
          · exact h (by rw [← h3]; simp)
          · exact h (by rw [← h4]; simp)
  · by_cases hx : x = []
    · subst hx
      right; right; right; right
      rfl
    · rw [selectTemplate_eq_lookup x hx]
      cases hres : alistGet templatesList (lowerStr x) with
      | none => right; right; right; right; rfl
      | some t =>
          rcases alistGet_templatesList _ _ hres with h | h | h | h
          · left; simp [h]
          · right; left; simp [h]
          · right; right; left; simp [h]
          · right; right; right; left; simp [h]
  · rfl
  · rfl

/-- C5: get_report_path returns the deterministic path reports_dir/<task_id>.pdf
exactly when a file exists there and None otherwise, and its result depends
only on the file system at that one path (it consults no task state). -/
theorem get_report_path_fs_only (env : Option Str) (fsExists : Str → Bool) (tid : Str) :
    (∀ p, InsuranceReportService.get_report_path env fsExists tid = some p ↔
        p = joinPath (reportsDirOf env) (tid ++ ".pdf".data) ∧ fsExists p = true) ∧
    (InsuranceReportService.get_report_path env fsExists tid = none ↔
        fsExists (joinPath (reportsDirOf env) (tid ++ ".pdf".data)) = false) ∧
    (∀ fsExists₂ : Str → Bool,
        fsExists (joinPath (reportsDirOf env) (tid ++ ".pdf".data))
          = fsExists₂ (joinPath (reportsDirOf env) (tid ++ ".pdf".data)) →
        InsuranceReportService.get_report_path env fsExists tid
          = InsuranceReportService.get_report_path env fsExists₂ tid) := by
  refine ⟨?_, ?_, ?_⟩
  · intro p
    constructor
    · intro h
      rw [InsuranceReportService.get_report_path] at h
      split_ifs at h with hf
      injection h with h₂
      subst h₂
      exact ⟨rfl, hf⟩
    · rintro ⟨rfl, hp⟩
      rw [InsuranceReportService.get_report_path, if_pos hp]
  · constructor
    · intro h
      rw [InsuranceReportService.get_report_path] at h
      split_ifs at h with hf
      simpa using hf
    · intro h
      rw [InsuranceReportService.get_report_path, if_neg (by simp [h])]
  · intro fsExists₂ h
    simp only [InsuranceReportService.get_report_path, h]

/-- C10: the two services compute extensionally equal artifact lookups from
the same REPORTS_DIR configuration and file-existence test, so the download
endpoint's second lookup is redundant: chaining them equals the first lookup
alone. -/
theorem services_get_report_path_agree (env : Option Str) (fsExists : Str → Bool)
    (tid : Str) :
    InsuranceReportService.get_report_path env fsExists tid
      = ReportService.get_report_path env fsExists tid ∧
    downloadReportPath env fsExists tid
      = InsuranceReportService.get_report_path env fsExists tid := by
  have hagree : InsuranceReportService.get_report_path env fsExists tid
      = ReportService.get_report_path env fsExists tid := rfl
  refine ⟨hagree, ?_⟩
  rw [downloadReportPath, ← hagree]
  rcases h : InsuranceReportService.get_report_path env fsExists tid with _ | p
  · rfl
  · simp [pyOrOptStr, ite_self]

/-- C7 counterexample: two retrieved chunks sharing one source identifier put
that identifier twice in the appended source list, so the list is not
deduplicated. -/
theorem context_sources_duplicate_cex :
    ¬ ((sourceLines [dupSourceDocA, dupSourceDocB]).countP
        (fun l => decide (l = "- s".data)) ≤ 1) := by
  decide

/-- C7 amended: with include_sources on, the Context is the bounded body plus
the fixed header and one source line per retrieved chunk, in chunk order; a
source shared by k chunks appears k times (the list is per-chunk, not
deduplicated). -/
theorem context_sources_per_chunk (docs : List Document) (L : Nat) (s : Str) :
    contextFromRetriever docs L true
      = contextBody docs L ++ "\n\n[참고 문서 출처]\n".data ++ sourcesBlock docs ∧
    (sourceLines docs).length = docs.length ∧
    (sourceLines docs).countP (fun l => decide (l = "- ".data ++ s))
      = (docs.filter (fun d => decide (metaSource d = s))).length := by
  refine ⟨rfl, by simp [sourceLines], ?_⟩
  induction docs with
  | nil => rfl
  | cons d rest ih =>
      rw [sourceLines, List.map_cons, List.countP_cons, List.filter_cons]
      rw [show (List.map (fun d => "- ".data ++ metaSource d) rest) = sourceLines rest
        from rfl, ih]
      by_cases hm : metaSource d = s
      · rw [hm]
        simp
      · have h1 : (decide ("- ".data ++ metaSource d = "- ".data ++ s)) = false := by
          simp only [decide_eq_false_iff_not]
          exact fun hEq => hm (List.append_cancel_left hEq)
        have h2 : decide (metaSource d = s) = false := by simp [hm]
        rw [h1, h2]
        simp

/-- Helper for C8: the loop of _format_incident_data over any key list renders
exactly the shown keys, in order, with their labels and display texts. -/
theorem filterMap_incidentLines (data : PyDict) (ks : List Str) :
    ks.filterMap (incidentLineOf data)
      = (ks.filter (shownB data)).map
          (fun k => "- ".data ++ labelFor k ++ ": ".data ++ shownText data k) := by
  induction ks with
  | nil => rfl
  | cons k rest ih =>
      rw [List.filterMap_cons, List.filter_cons]
      cases hk : dictLookup data k with
      | none =>
          have h1 : incidentLineOf data k = none := by simp [incidentLineOf, hk]
          have h2 : shownB data k = false := by simp [shownB, hk]
          simp [h1, h2, ih]
      | some v =>
          by_cases hv : v = PyVal.vnone ∨ v = PyVal.vstr []
          · have h1 : incidentLineOf data k = none := by simp [incidentLineOf, hk, hv]
            have h2 : shownB data k = false := by simp [shownB, hk, hv]
            simp [h1, h2, ih]
          · have h1 : incidentLineOf data k
                = some ("- ".data ++ labelFor k ++ ": ".data ++ v.toText) := by
              simp [incidentLineOf, hk, hv]
            have h2 : shownB data k = true := by simp [shownB, hk, hv]
            have h3 : shownText data k = v.toText := by simp [shownText, hk]
            simp [h1, h2, h3, ih]

/-- C8: _format_incident_data renders exactly the shown recognized fields, in
the fixed order with the fixed labels; at most five lines; every line comes
from a recognized key (unrecognized keys never appear); absent, None or empty
fields are omitted entirely, and with no shown field the fixed placeholder is
returned. -/
theorem format_incident_data_spec (data : PyDict) :
    incidentLines data
      = (recognizedKeys.filter (shownB data)).map
          (fun k => "- ".data ++ labelFor k ++ ": ".data ++ shownText data k) ∧
    (incidentLines data).length ≤ 5 ∧
    (∀ l ∈ incidentLines data, ∃ k, k ∈ recognizedKeys ∧ shownB data k = true ∧
        l = "- ".data ++ labelFor k ++ ": ".data ++ shownText data k) ∧
    formatIncidentData data
      = (if incidentLines data = [] then "(제공된 데이터 없음)".data
         else List.intercalate "\n".data (incidentLines data)) := by
  have h1 := filterMap_incidentLines data recognizedKeys
  refine ⟨h1, ?_, ?_, rfl⟩
  · rw [incidentLines, h1, List.length_map]
    have h2 := List.length_filter_le (shownB data) recognizedKeys
    have h3 : recognizedKeys.length = 5 := rfl
    omega
  · intro l hl
    rw [incidentLines, h1] at hl
    rcases List.mem_map.mp hl with ⟨k, hk, rfl⟩
    rcases List.mem_filter.mp hk with ⟨hk1, hk2⟩
    exact ⟨k, hk1, hk2, rfl⟩

/-- Helper: appending a message to a session makes its buffer the old buffer
plus that message. -/
theorem sessionAppend_get_same (sessions : Sessions) (sid : Str) (m : ChatMessage) :
    alistGet (sessionAppend sessions sid m) sid
      = some ((alistGet sessions sid).getD [] ++ [m]) := by
  induction sessions with
  | nil => simp [sessionAppend, alistGet]
  | cons p rest ih =>
      obtain ⟨k, ms⟩ := p
      by_cases hk : k = sid
      · subst hk
        simp [sessionAppend, alistGet]
      · simp [sessionAppend, alistGet, hk, ih]

/-- Helper: appending to one session leaves every other session unchanged. -/
theorem sessionAppend_get_other (sessions : Sessions) (sid sid₂ : Str)
    (m : ChatMessage) (h : sid₂ ≠ sid) :
    alistGet (sessionAppend sessions sid m) sid₂ = alistGet sessions sid₂ := by
  induction sessions with
  | nil =>
      have h2 : ¬ sid = sid₂ := fun hh => h hh.symm
      simp [sessionAppend, alistGet, h2]
  | cons p rest ih =>
      obtain ⟨k, ms⟩ := p
      by_cases hk : k = sid
      · subst hk
        have h2 : ¬ k = sid₂ := fun hh => h hh.symm
        simp [sessionAppend, alistGet, h2]
      · simp [sessionAppend, alistGet, hk, ih]

/-- Helper: every manager call is a session append of its message. -/
theorem applyEvent_eq (sessions : Sessions) (e : MemEvent) :
    applyEvent sessions e = sessionAppend sessions (eventSid e) (messageOfEvent e) := by
  cases e <;> rfl

/-- Helper: running calls from any state grows each session by exactly its own
calls, in order. -/
theorem runFold_get (evs : List MemEvent) :
    ∀ (sessions : Sessions) (sid : Str),
      (alistGet (evs.foldl applyEvent sessions) sid).getD []
        = (alistGet sessions sid).getD [] ++ conversationOf sid evs := by
  induction evs with
  | nil =>
      intro sessions sid
      simp [conversationOf]
  | cons e rest ih =>
      intro sessions sid
      rw [List.foldl_cons, ih, applyEvent_eq]
      by_cases he : eventSid e = sid
      · subst he
        rw [sessionAppend_get_same]
        simp [conversationOf, List.filter_cons]
      · rw [sessionAppend_get_other _ _ _ _ (fun hh => he hh.symm)]
        simp [conversationOf, List.filter_cons, he]

/-- C9: after any sequence of add_user/add_ai calls, a session's buffer is
exactly its own conversation in call order; history_text renders the last
min(20, n) messages of it, oldest first, each line labelled 사용자 or AI by
the speaker's role; the rendered slice is a suffix of the conversation. -/
theorem history_text_bounded_recent (evs : List MemEvent) (sid : Str) :
    sessionMessages (runEvents evs) sid = conversationOf sid evs ∧
    historyLines (conversationOf sid evs)
      = ((conversationOf sid evs).drop ((conversationOf sid evs).length - 20)).map
          (fun m => roleLabelOf m ++ ": ".data ++ m.content) ∧
    (historyLines (conversationOf sid evs)).length ≤ 20 ∧
    (∃ pre, pre ++ (conversationOf sid evs).drop ((conversationOf sid evs).length - 20)
        = conversationOf sid evs) ∧
    (∀ t : Str, roleLabelOf ⟨MsgRole.human, t⟩ = "사용자".data) ∧
    (∀ t : Str, roleLabelOf ⟨MsgRole.ai, t⟩ = "AI".data) ∧
    historyText (runEvents evs) sid
      = List.intercalate "\n".data (historyLines (sessionMessages (runEvents evs) sid)) := by
  have h1 : sessionMessages (runEvents evs) sid = conversationOf sid evs := by
    rw [sessionMessages, runEvents, runFold_get]
    rfl
  refine ⟨h1, rfl, ?_, ?_, fun t => rfl, fun t => rfl, ?_⟩
  · rw [historyLines, List.length_map, List.length_drop]
    omega
  · exact ⟨(conversationOf sid evs).take ((conversationOf sid evs).length - 20),
      List.take_append_drop _ _⟩
  · rcases hh : alistGet (runEvents evs) sid with _ | msgs
    · simp [historyText, hh, sessionMessages, historyLines, List.intercalate]
    · simp [historyText, hh, sessionMessages]

/-- Helper: dict.get with a default through the optional lookup. -/
theorem dictGet_eq_lookup (d : PyDict) (key : Str) (dflt : PyVal) :
    dictGet d key dflt = (dictLookup d key).getD dflt := by
  induction d with
  | nil => rfl
  | cons p rest ih =>
      obtain ⟨k, v⟩ := p
      by_cases hk : k = key <;> simp [dictGet, dictLookup, hk, ih]

/-- Helper: incident-type resolution with a falsy explicit argument consults
the payload field. -/
theorem resolveIncidentType_falsy (explicit : Option Str) (data : PyDict)
    (hfal : (explicitVal explicit).truthy = false) :
    resolveIncidentType explicit data
      = pyLower ((dictLookup data "incident_type".data).getD (PyVal.vstr "generic".data)) := by
  rw [resolveIncidentType, pyOr, hfal, dictGet_eq_lookup]
  simp

/-- C4 counterexample: a payload whose incident_type key holds null makes the
orchestrator's incident-type resolution raise AttributeError instead of
resolving to generic. -/
theorem resolve_incident_type_raises_cex :
    resolveIncidentType none [("incident_type".data, PyVal.vnone)]
      = Except.error "AttributeError" := rfl

/-- C4 amended: resolution never raises provided the value it consults is a
string: a non-empty explicit argument wins (lowercased); otherwise the
payload's incident_type is used when present and must then be a string (null
or non-string values raise), and an absent key resolves to generic. -/
theorem resolve_incident_type_amended (explicit : Option Str) (data : PyDict)
    (h : (∃ s, explicit = some s ∧ s ≠ []) ∨ strOrAbsentIncidentType data = true) :
    ∃ ty, resolveIncidentType explicit data = Except.ok ty ∧
      (∀ s, explicit = some s → s ≠ [] → ty = lowerStr s) ∧
      ((explicit = none ∨ explicit = some []) →
        dictLookup data "incident_type".data = none → ty = "generic".data) ∧
      ((explicit = none ∨ explicit = some []) →
        ∀ s, dictLookup data "incident_type".data = some (PyVal.vstr s) →
          ty = lowerStr s) := by
  by_cases htru : (explicitVal explicit).truthy = true
  · rcases explicit with _ | s
    · exact absurd htru (by simp [explicitVal, PyVal.truthy])
    · have hsne : s ≠ [] := by
        intro h0
        subst h0
        exact absurd htru (by simp [explicitVal, PyVal.truthy])
      refine ⟨lowerStr s, ?_, ?_, ?_, ?_⟩
      · rw [resolveIncidentType, pyOr, htru]
        simp [explicitVal, pyLower]
      · intro s₂ hs₂ _
        injection hs₂ with h₂
        rw [h₂]
      · intro h0 _
        rcases h0 with h0 | h0
        · exact Option.noConfusion h0
        · injection h0 with h₂
          exact absurd h₂ hsne
      · intro h0 s₂ _
        rcases h0 with h0 | h0
        · exact Option.noConfusion h0
        · injection h0 with h₂
          exact absurd h₂ hsne
  · have hfal : (explicitVal explicit).truthy = false := by
      cases hv : (explicitVal explicit).truthy
      · rfl
      · exact absurd hv htru
    have hres := resolveIncidentType_falsy explicit data hfal
    cases hlk : dictLookup data "incident_type".data with
    | none =>
        refine ⟨"generic".data, ?_, ?_, fun _ _ => rfl, ?_⟩
        · rw [hres, hlk]
          rfl
        · intro s₂ hs₂ hsne
          subst hs₂
          rcases s₂ with _ | ⟨c, cs⟩
          · exact absurd rfl hsne
          · simp [explicitVal, PyVal.truthy] at hfal
        · intro _ s hs
          exact Option.noConfusion hs
    | some v =>
        have hstr : ∃ s, v = PyVal.vstr s := by
          rcases h with ⟨s, hs, hsne⟩ | hb
          · subst hs
            rcases s with _ | ⟨c, cs⟩
            · exact absurd rfl hsne
            · simp [explicitVal, PyVal.truthy] at hfal
          · have hb₂ : (match dictLookup data "incident_type".data with
                | some (PyVal.vstr _) => true
                | some _ => false
                | none => true) = true := hb
            rw [hlk] at hb₂
            cases v with
            | vstr s => exact ⟨s, rfl⟩
            | vnone => simp at hb₂
            | vint n => simp at hb₂
            | vbool b => simp at hb₂
        rcases hstr with ⟨s, rfl⟩
        refine ⟨lowerStr s, ?_, ?_, ?_, ?_⟩
        · rw [hres, hlk]
          rfl
        · intro s₂ hs₂ hsne
          subst hs₂
          rcases s₂ with _ | ⟨c, cs⟩
          · exact absurd rfl hsne
          · simp [explicitVal, PyVal.truthy] at hfal
        · intro _ hlk₂
          exact Option.noConfusion hlk₂
        · intro _ s₂ hs₂
          injection hs₂ with h₂
          injection h₂ with h₃
          rw [h₃]

/-- Helper: the head surviving a dropWhile fails the predicate. -/
theorem dropWhile_head_false {p : Char → Bool} :
    ∀ (l : Str) (c : Char) (t : Str), l.dropWhile p = c :: t → p c = false := by
  intro l
  induction l with
  | nil =>
      intro c t h
      exact absurd h (by simp)
  | cons a l ih =>
      intro c t h
      by_cases ha : p a
      · rw [List.dropWhile_cons, if_pos ha] at h
        exact ih c t h
      · rw [List.dropWhile_cons, if_neg ha] at h
        injection h with h₁ _
        subst h₁
        simpa using ha

/-- Helper: left-stripping refines to stripping both ends plus a whitespace
remainder. -/
theorem stripChars_decomp (s : Str) :
    ∃ junk, s.dropWhile pyIsSpace = stripChars s ++ junk := by
  refine ⟨((s.dropWhile pyIsSpace).reverse.takeWhile pyIsSpace).reverse, ?_⟩
  have h1 : (s.dropWhile pyIsSpace).reverse
      = (s.dropWhile pyIsSpace).reverse.takeWhile pyIsSpace
        ++ (s.dropWhile pyIsSpace).reverse.dropWhile pyIsSpace := by
    rw [List.takeWhile_append_dropWhile]
  calc s.dropWhile pyIsSpace
      = ((s.dropWhile pyIsSpace).reverse).reverse := (List.reverse_reverse _).symm
    _ = ((s.dropWhile pyIsSpace).reverse.takeWhile pyIsSpace
          ++ (s.dropWhile pyIsSpace).reverse.dropWhile pyIsSpace).reverse := by rw [← h1]
    _ = stripChars s
          ++ ((s.dropWhile pyIsSpace).reverse.takeWhile pyIsSpace).reverse := by
        rw [List.reverse_append]
        rfl

/-- Helper: a stripped string never starts with whitespace. -/
theorem stripChars_head_false (s : Str) (c : Char) (t : Str)
    (h : stripChars s = c :: t) : pyIsSpace c = false := by
  rcases stripChars_decomp s with ⟨junk, hd⟩
  rw [h, List.cons_append] at hd
  exact dropWhile_head_false s c (t ++ junk) hd

/-- Helper: right-stripping keeps a string whose last character is not
whitespace. -/
theorem rstrip_append_last (a t : Str) (c : Char) (hc : pyIsSpace c = false) :
    ((a ++ (t ++ [c])).reverse.dropWhile pyIsSpace).reverse = a ++ (t ++ [c]) := by
  simp [List.reverse_append, List.dropWhile_cons, hc, List.append_assoc]

/-- Helper: left-stripping keeps a string whose first character is not
whitespace. -/
theorem lstrip_cons_false (c : Char) (l : Str) (hc : pyIsSpace c = false) :
    (c :: l).dropWhile pyIsSpace = c :: l := by
  rw [List.dropWhile_cons, if_neg (by simp [hc])]

/-- Helper: every hint ends in a non-whitespace character. -/
theorem hint_decomp (ty : Str) :
    ∃ t c, hintFor ty = t ++ [c] ∧ pyIsSpace c = false := by
  rw [hintFor]
  split_ifs
  · exact ⟨fireHint.dropLast, '항', by decide, by decide⟩
  · exact ⟨oilSpillHint.dropLast, '항', by decide, by decide⟩
  · exact ⟨collisionHint.dropLast, '항', by decide, by decide⟩
  · exact ⟨crewInjuryHint.dropLast, '항', by decide, by decide⟩
  · exact ⟨genericHint.dropLast, '정', by decide, by decide⟩

/-- Helper: the final strip of the seed query leaves the description, the
separator and the hint intact (only the leading separator whitespace goes when
the description is empty). -/
theorem stripChars_seed (desc tail : Str) (c : Char)
    (hd : ∀ c₀ t₀, desc = c₀ :: t₀ → pyIsSpace c₀ = false)
    (hc : pyIsSpace c = false) :
    stripChars (desc ++ "\n\n[검색 힌트]\n".data ++ (tail ++ [c]))
      = (if desc = [] then "[검색 힌트]\n".data ++ (tail ++ [c])
         else desc ++ "\n\n[검색 힌트]\n".data ++ (tail ++ [c])) := by
  by_cases hdesc : desc = []
  · subst hdesc
    rw [if_pos rfl, stripChars]
    have h1 : (([] ++ "\n\n[검색 힌트]\n".data) ++ (tail ++ [c])).dropWhile pyIsSpace
        = "[검색 힌트]\n".data ++ (tail ++ [c]) := by
      rw [show (([] : Str) ++ "\n\n[검색 힌트]\n".data) ++ (tail ++ [c])
          = '\n' :: ('\n' :: ('[' :: ("검색 힌트]\n".data ++ (tail ++ [c])))) from rfl]
      rw [List.dropWhile_cons, if_pos (by decide), List.dropWhile_cons,
        if_pos (by decide), List.dropWhile_cons, if_neg (by decide)]
      rfl
    rw [h1]
    exact rstrip_append_last ("[검색 힌트]\n".data) tail c hc
  · rw [if_neg hdesc]
    rcases hdd : desc with _ | ⟨d₀, dt⟩
    · exact absurd hdd hdesc
    · subst hdd
      have hd₀ : pyIsSpace d₀ = false := hd d₀ dt rfl
      rw [stripChars]
      have h1 : (((d₀ :: dt) ++ "\n\n[검색 힌트]\n".data) ++ (tail ++ [c])).dropWhile pyIsSpace
          = ((d₀ :: dt) ++ "\n\n[검색 힌트]\n".data) ++ (tail ++ [c]) := by
        rw [show ((d₀ :: dt) ++ "\n\n[검색 힌트]\n".data) ++ (tail ++ [c])
            = d₀ :: ((dt ++ "\n\n[검색 힌트]\n".data) ++ (tail ++ [c])) from by
          simp [List.cons_append]]
        exact lstrip_cons_false d₀ _ hd₀
      rw [h1]
      exact rstrip_append_last ((d₀ :: dt) ++ "\n\n[검색 힌트]\n".data) tail c hc

/-- Helper: the seed query's incident-type value lowers without error exactly
as the orchestrator's resolution does, under the same string-value condition. -/
theorem seed_type_spec (data : PyDict) (itype : Str)
    (h : itype ≠ [] ∨ strOrAbsentIncidentType data = true) :
    ∃ ty, pyLower (seedIncidentTypeRaw data itype) = Except.ok ty ∧
      (itype ≠ [] → ty = lowerStr itype) ∧
      (itype = [] → dictLookup data "incident_type".data = none → ty = "generic".data) ∧
      (itype = [] → ∀ s, dictLookup data "incident_type".data = some (PyVal.vstr s) →
          ty = lowerStr s) := by
  by_cases hit : itype = []
  · subst hit
    have hraw : seedIncidentTypeRaw data []
        = (dictLookup data "incident_type".data).getD (PyVal.vstr "generic".data) := by
      rw [seedIncidentTypeRaw, pyOr, dictGet_eq_lookup]
      rfl
    cases hlk : dictLookup data "incident_type".data with
    | none =>
        refine ⟨"generic".data, ?_, fun hne => absurd rfl hne, fun _ _ => rfl, ?_⟩
        · rw [hraw, hlk]
          rfl
        · intro _ s hs
          exact Option.noConfusion hs
    | some v =>
        have hstr : ∃ s, v = PyVal.vstr s := by
          rcases h with hne | hb
          · exact absurd rfl hne
          · have hb₂ : (match dictLookup data "incident_type".data with
                | some (PyVal.vstr _) => true
                | some _ => false
                | none => true) = true := hb
            rw [hlk] at hb₂
            cases v with
            | vstr s => exact ⟨s, rfl⟩
            | vnone => simp at hb₂
            | vint n => simp at hb₂
            | vbool b => simp at hb₂
        rcases hstr with ⟨s, rfl⟩
        refine ⟨lowerStr s, ?_, fun hne => absurd rfl hne, ?_, ?_⟩
        · rw [hraw, hlk]
          rfl
        · intro _ hcontra
          exact Option.noConfusion hcontra
        · intro _ s₂ hs₂
          injection hs₂ with h₂
          injection h₂ with h₃
          rw [h₃]
  · rcases hi : itype with _ | ⟨c, cs⟩
    · exact absurd hi hit
    · subst hi
      refine ⟨lowerStr (c :: cs), ?_, fun _ => rfl, fun h0 => absurd h0 (by simp),
        fun h0 => absurd h0 (by simp)⟩
      rw [seedIncidentTypeRaw, pyOr]
      simp [PyVal.truthy, pyLower]

/-- C6: _build_seed_query returns the stripped free-text description (when
present) concatenated with the fixed separator and the per-incident-type hint,
where the hint is chosen by exact case-insensitive match against the four
known types with the generic hint as fallback; as a pure function it is
deterministic by construction. -/
theorem build_seed_query_spec (data : PyDict) (itype : Str)
    (h : itype ≠ [] ∨ strOrAbsentIncidentType data = true) :
    ∃ ty seed, pyLower (seedIncidentTypeRaw data itype) = Except.ok ty ∧
      buildSeedQuery data itype = Except.ok seed ∧
      (itype ≠ [] → ty = lowerStr itype) ∧
      (itype = [] → dictLookup data "incident_type".data = none → ty = "generic".data) ∧
      (itype = [] → ∀ s, dictLookup data "incident_type".data = some (PyVal.vstr s) →
          ty = lowerStr s) ∧
      (seedDescription data ≠ [] →
          seed = seedDescription data ++ "\n\n[검색 힌트]\n".data ++ hintFor ty) ∧
      (seedDescription data = [] → seed = "[검색 힌트]\n".data ++ hintFor ty) ∧
      (ty = "fire".data → hintFor ty = fireHint) ∧
      (ty = "oil_spill".data → hintFor ty = oilSpillHint) ∧
      (ty = "collision".data → hintFor ty = collisionHint) ∧
      (ty = "crew_injury".data → hintFor ty = crewInjuryHint) ∧
      (ty ∉ ["fire".data, "oil_spill".data, "collision".data, "crew_injury".data] →
          hintFor ty = genericHint) := by
  obtain ⟨ty, hty, hty1, hty2, hty3⟩ := seed_type_spec data itype h
  obtain ⟨tl, c, hdecomp, hc⟩ := hint_decomp ty
  have hseed : buildSeedQuery data itype
      = Except.ok (stripChars (seedDescription data ++ "\n\n[검색 힌트]\n".data
          ++ hintFor ty)) := by
    unfold buildSeedQuery
    rw [hty]
  have hd : ∀ c₀ t₀, seedDescription data = c₀ :: t₀ → pyIsSpace c₀ = false := by
    intro c₀ t₀ h₀
    exact stripChars_head_false _ c₀ t₀ h₀
  have hstrip := stripChars_seed (seedDescription data) tl c hd hc
  rw [← hdecomp] at hstrip
  refine ⟨ty, _, hty, hseed, hty1, hty2, hty3, ?_, ?_, ?_, ?_, ?_, ?_, ?_⟩
  · intro hne
    rw [hstrip, if_neg hne]
  · intro he
    rw [hstrip, if_pos he]
  · intro h0
    rw [h0]
    rfl
  · intro h0
    rw [h0]
    rfl
  · intro h0
    rw [h0]
    rfl
  · intro h0
    rw [h0]
    rfl
  · intro h0
    rw [hintFor]
    split_ifs with h1 h2 h3 h4
    · exact absurd (by simp [h1]) h0
    · exact absurd (by simp [h2]) h0
    · exact absurd (by simp [h3]) h0
    · exact absurd (by simp [h4]) h0
    · rfl

/-- Helper: a RAG-step error is returned as is, file system untouched. -/
theorem run_rag_error (rag_run : Str → Except String Str)
    (gen : Str → Str → Str → Except String Str)
    (render : Str → Str → Except String Unit) (env : Option Str) (fs : List Str)
    (taskId : Str) (data : PyDict) (incidentType : Option Str) (useRag : Bool)
    (e : String) (hrag : ragContextStep rag_run data incidentType useRag = Except.error e) :
    generateInsuranceReportPdf rag_run gen render env fs taskId data incidentType useRag
      = (Except.error e, fs) := by
  unfold generateInsuranceReportPdf
  rw [hrag]

/-- Helper: a resolution error is returned as is, file system untouched. -/
theorem run_resolve_error (rag_run : Str → Except String Str)
    (gen : Str → Str → Str → Except String Str)
    (render : Str → Str → Except String Unit) (env : Option Str) (fs : List Str)
    (taskId : Str) (data : PyDict) (incidentType : Option Str) (useRag : Bool)
    (ctx : Str) (e : String)
    (hrag : ragContextStep rag_run data incidentType useRag = Except.ok ctx)
    (hres : resolveIncidentType incidentType data = Except.error e) :
    generateInsuranceReportPdf rag_run gen render env fs taskId data incidentType useRag
      = (Except.error e, fs) := by
  unfold generateInsuranceReportPdf
  rw [hrag, hres]

/-- Helper: a generation error is returned as is, file system untouched. -/
theorem run_gen_error (rag_run : Str → Except String Str)
    (gen : Str → Str → Str → Except String Str)
    (render : Str → Str → Except String Unit) (env : Option Str) (fs : List Str)
    (taskId : Str) (data : PyDict) (incidentType : Option Str) (useRag : Bool)
    (ctx ty : Str) (e : String)
    (hrag : ragContextStep rag_run data incidentType useRag = Except.ok ctx)
    (hres : resolveIncidentType incidentType data = Except.ok ty)
    (hgen : generateReport gen data ctx ty = Except.error e) :
    generateInsuranceReportPdf rag_run gen render env fs taskId data incidentType useRag
      = (Except.error e, fs) := by
  unfold generateInsuranceReportPdf
  simp only [hrag, hres, hgen]

/-- Helper: a render error is returned as is, file system untouched. -/
theorem run_render_error (rag_run : Str → Except String Str)
    (gen : Str → Str → Str → Except String Str)
    (render : Str → Str → Except String Unit) (env : Option Str) (fs : List Str)
    (taskId : Str) (data : PyDict) (incidentType : Option Str) (useRag : Bool)
    (ctx ty txt : Str) (e : String)
    (hrag : ragContextStep rag_run data incidentType useRag = Except.ok ctx)
    (hres : resolveIncidentType incidentType data = Except.ok ty)
    (hgen : generateReport gen data ctx ty = Except.ok txt)
    (hrend : render (joinPath (reportsDirOf env) (taskId ++ ".pdf".data)) txt
        = Except.error e) :
    generateInsuranceReportPdf rag_run gen render env fs taskId data incidentType useRag
      = (Except.error e, fs) := by
  unfold generateInsuranceReportPdf renderCommit
  simp only [hrag, hres, hgen, hrend]

/-- Helper: a fully successful run returns the deterministic path and commits
exactly that artifact. -/
theorem run_success (rag_run : Str → Except String Str)
    (gen : Str → Str → Str → Except String Str)
    (render : Str → Str → Except String Unit) (env : Option Str) (fs : List Str)
    (taskId : Str) (data : PyDict) (incidentType : Option Str) (useRag : Bool)
    (ctx ty txt : Str)
    (hrag : ragContextStep rag_run data incidentType useRag = Except.ok ctx)
    (hres : resolveIncidentType incidentType data = Except.ok ty)
    (hgen : generateReport gen data ctx ty = Except.ok txt)
    (hrend : render (joinPath (reportsDirOf env) (taskId ++ ".pdf".data)) txt
        = Except.ok ()) :
    generateInsuranceReportPdf rag_run gen render env fs taskId data incidentType useRag
      = (Except.ok (joinPath (reportsDirOf env) (taskId ++ ".pdf".data)),
         fs ++ [joinPath (reportsDirOf env) (taskId ++ ".pdf".data)]) := by
  unfold generateInsuranceReportPdf renderCommit
  simp only [hrag, hres, hgen, hrend]

/-- C2: when nothing pre-exists at the task's artifact path, every failing run
of generate_insurance_report_pdf returns the failing step's error unchanged
(retrieval/seed building, type resolution, generation or rendering), leaves
the file system untouched, and get_report_path still reports no artifact; a
successful run commits exactly the complete artifact at the deterministic
path. -/
theorem generate_report_failure_clean (rag_run : Str → Except String Str)
    (gen : Str → Str → Str → Except String Str)
    (render : Str → Str → Except String Unit) (env : Option Str) (fs : List Str)
    (taskId : Str) (data : PyDict) (incidentType : Option Str) (useRag : Bool)
    (hpre : joinPath (reportsDirOf env) (taskId ++ ".pdf".data) ∉ fs) :
    (∀ e fs₂,
      generateInsuranceReportPdf rag_run gen render env fs taskId data incidentType useRag
          = (Except.error e, fs₂) →
      fs₂ = fs ∧
      InsuranceReportService.get_report_path env (fun p => decide (p ∈ fs₂)) taskId
        = none) ∧
    (∀ e, ragContextStep rag_run data incidentType useRag = Except.error e →
      generateInsuranceReportPdf rag_run gen render env fs taskId data incidentType useRag
        = (Except.error e, fs)) ∧
    (∀ ctx e, ragContextStep rag_run data incidentType useRag = Except.ok ctx →
      resolveIncidentType incidentType data = Except.error e →
      generateInsuranceReportPdf rag_run gen render env fs taskId data incidentType useRag
        = (Except.error e, fs)) ∧
    (∀ ctx ty e, ragContextStep rag_run data incidentType useRag = Except.ok ctx →
      resolveIncidentType incidentType data = Except.ok ty →
      generateReport gen data ctx ty = Except.error e →
      generateInsuranceReportPdf rag_run gen render env fs taskId data incidentType useRag
        = (Except.error e, fs)) ∧
    (∀ ctx ty txt e, ragContextStep rag_run data incidentType useRag = Except.ok ctx →
      resolveIncidentType incidentType data = Except.ok ty →
      generateReport gen data ctx ty = Except.ok txt →
      render (joinPath (reportsDirOf env) (taskId ++ ".pdf".data)) txt = Except.error e →
      generateInsuranceReportPdf rag_run gen render env fs taskId data incidentType useRag
        = (Except.error e, fs)) ∧
    (∀ p fs₂,
      generateInsuranceReportPdf rag_run gen render env fs taskId data incidentType useRag
          = (Except.ok p, fs₂) →
      p = joinPath (reportsDirOf env) (taskId ++ ".pdf".data) ∧
      fs₂ = fs ++ [joinPath (reportsDirOf env) (taskId ++ ".pdf".data)]) := by
  have hnone : InsuranceReportService.get_report_path env
      (fun p => decide (p ∈ fs)) taskId = none := by
    rw [InsuranceReportService.get_report_path, if_neg (by simp [hpre])]
  refine ⟨?_, ?_, ?_, ?_, ?_, ?_⟩
  · intro e fs₂ hrun
    cases hrag : ragContextStep rag_run data incidentType useRag with
    | error e₂ =>
        rw [run_rag_error rag_run gen render env fs taskId data incidentType useRag e₂ hrag]
          at hrun
        injection hrun with h₁ h₂
        exact ⟨h₂.symm, by rw [← h₂]; exact hnone⟩
    | ok ctx =>
        cases hres : resolveIncidentType incidentType data with
        | error e₂ =>
            rw [run_resolve_error rag_run gen render env fs taskId data incidentType useRag
              ctx e₂ hrag hres] at hrun
            injection hrun with h₁ h₂
            exact ⟨h₂.symm, by rw [← h₂]; exact hnone⟩
        | ok ty =>
            cases hgen : generateReport gen data ctx ty with
            | error e₂ =>
                rw [run_gen_error rag_run gen render env fs taskId data incidentType useRag
                  ctx ty e₂ hrag hres hgen] at hrun
                injection hrun with h₁ h₂
                exact ⟨h₂.symm, by rw [← h₂]; exact hnone⟩
            | ok txt =>
                cases hrend : render (joinPath (reportsDirOf env) (taskId ++ ".pdf".data)) txt
                  with
                | error e₂ =>
                    rw [run_render_error rag_run gen render env fs taskId data incidentType
                      useRag ctx ty txt e₂ hrag hres hgen hrend] at hrun
                    injection hrun with h₁ h₂
                    exact ⟨h₂.symm, by rw [← h₂]; exact hnone⟩
                | ok u =>
                    rw [run_success rag_run gen render env fs taskId data incidentType useRag
                      ctx ty txt hrag hres hgen hrend] at hrun
                    injection hrun with h₁ h₂
                    exact Except.noConfusion h₁
  · intro e hrag
    exact run_rag_error rag_run gen render env fs taskId data incidentType useRag e hrag
  · intro ctx e hrag hres
    exact run_resolve_error rag_run gen render env fs taskId data incidentType useRag
      ctx e hrag hres
  · intro ctx ty e hrag hres hgen
    exact run_gen_error rag_run gen render env fs taskId data incidentType useRag
      ctx ty e hrag hres hgen
  · intro ctx ty txt e hrag hres hgen hrend
    exact run_render_error rag_run gen render env fs taskId data incidentType useRag
      ctx ty txt e hrag hres hgen hrend
  · intro p fs₂ hrun
    cases hrag : ragContextStep rag_run data incidentType useRag with
    | error e₂ =>
        rw [run_rag_error rag_run gen render env fs taskId data incidentType useRag e₂ hrag]
          at hrun
        injection hrun with h₁ h₂
        exact Except.noConfusion h₁
    | ok ctx =>
        cases hres : resolveIncidentType incidentType data with
        | error e₂ =>
            rw [run_resolve_error rag_run gen render env fs taskId data incidentType useRag
              ctx e₂ hrag hres] at hrun
            injection hrun with h₁ h₂
            exact Except.noConfusion h₁
        | ok ty =>
            cases hgen : generateReport gen data ctx ty with
            | error e₂ =>
                rw [run_gen_error rag_run gen render env fs taskId data incidentType useRag
                  ctx ty e₂ hrag hres hgen] at hrun
                injection hrun with h₁ h₂
                exact Except.noConfusion h₁
            | ok txt =>
                cases hrend : render (joinPath (reportsDirOf env) (taskId ++ ".pdf".data)) txt
                  with
                | error e₂ =>
                    rw [run_render_error rag_run gen render env fs taskId data incidentType
                      useRag ctx ty txt e₂ hrag hres hgen hrend] at hrun
                    injection hrun with h₁ h₂
                    exact Except.noConfusion h₁
                | ok u =>
                    rw [run_success rag_run gen render env fs taskId data incidentType useRag
                      ctx ty txt hrag hres hgen hrend] at hrun
                    injection hrun with h₁ h₂
                    injection h₁ with h₃
                    exact ⟨h₃.symm, h₂.symm⟩

/-- Witness for C2 at a concrete failing retrieval: the error propagates
unchanged, and no artifact is visible. -/
theorem generate_report_failure_witness :
    generateInsuranceReportPdf failingRagRun fixedGen okRender none [] "t".data [] none true
      = (Except.error "RetrievalError", []) ∧
    InsuranceReportService.get_report_path none
      (fun p => decide (p ∈ ([] : List Str))) "t".data = none := by
  have h := generate_report_failure_clean failingRagRun fixedGen okRender none []
    "t".data [] none true (by simp)
  have hstep : ragContextStep failingRagRun [] none true
      = Except.error "RetrievalError" := rfl
  have hrun := h.2.1 "RetrievalError" hstep
  exact ⟨hrun, (h.1 "RetrievalError" [] hrun).2⟩

/-- Witness for C4 amended, at the concrete explicit type "FIRE" and an empty
payload. -/
theorem resolve_incident_type_witness :
    ∃ ty, resolveIncidentType (some "FIRE".data) [] = Except.ok ty ∧
      (∀ s, some "FIRE".data = some s → s ≠ [] → ty = lowerStr s) ∧
      ((some "FIRE".data = none ∨ some "FIRE".data = some []) →
        dictLookup [] "incident_type".data = none → ty = "generic".data) ∧
      ((some "FIRE".data = none ∨ some "FIRE".data = some []) →
        ∀ s, dictLookup [] "incident_type".data = some (PyVal.vstr s) →
          ty = lowerStr s) :=
  resolve_incident_type_amended (some "FIRE".data) []
    (Or.inl ⟨"FIRE".data, rfl, by decide⟩)

/-- Witness for C6 at the concrete fire payload and the explicit type "FIRE". -/
theorem build_seed_query_witness :
    ∃ ty seed, pyLower (seedIncidentTypeRaw sampleIncident "FIRE".data) = Except.ok ty ∧
      buildSeedQuery sampleIncident "FIRE".data = Except.ok seed ∧
      ("FIRE".data ≠ ([] : Str) → ty = lowerStr "FIRE".data) ∧
      ("FIRE".data = ([] : Str) →
        dictLookup sampleIncident "incident_type".data = none → ty = "generic".data) ∧
      ("FIRE".data = ([] : Str) →
        ∀ s, dictLookup sampleIncident "incident_type".data = some (PyVal.vstr s) →
          ty = lowerStr s) ∧
      (seedDescription sampleIncident ≠ [] →
          seed = seedDescription sampleIncident ++ "\n\n[검색 힌트]\n".data ++ hintFor ty) ∧
      (seedDescription sampleIncident = [] → seed = "[검색 힌트]\n".data ++ hintFor ty) ∧
      (ty = "fire".data → hintFor ty = fireHint) ∧
      (ty = "oil_spill".data → hintFor ty = oilSpillHint) ∧
      (ty = "collision".data → hintFor ty = collisionHint) ∧
      (ty = "crew_injury".data → hintFor ty = crewInjuryHint) ∧
      (ty ∉ ["fire".data, "oil_spill".data, "collision".data, "crew_injury".data] →
          hintFor ty = genericHint) :=
  build_seed_query_spec sampleIncident "FIRE".data (Or.inl (by decide))

/-- C6 counterexample: with an empty incident-type argument and a payload
whose incident_type holds a non-string, _build_seed_query raises
AttributeError instead of returning a seed query, so the unconditional claim
fails. -/
theorem build_seed_query_raises_cex :
    buildSeedQuery [("incident_type".data, PyVal.vint 5)] []
      = Except.error "AttributeError" := rfl
